import Mathlib

/-!
Verification development for the tachi-remote manga server.

The definitions below are a shallow embedding of the Rust sources:
`src/load.rs` (library loader, descriptor model, page sources, zip page
index) and `src/server.rs` (router, page streamer, content negotiation).
Byte strings are modelled as `List Nat` (each element a byte value),
filesystem paths as `String`, the filesystem itself as an explicit
function argument, and external collaborators (TOML parser, serde_json
body serializer, flate2 gzip/deflate coders, rc_zip central-directory
parser) as function or data parameters.  Fallible Rust code returns
`Except`/`Option`; the single `expect` panic site is modelled as `none`.
-/

namespace TachiRemote

/-- Compression method of a zip entry (rc_zip `Method`); the server only
handles `Store` and `Deflate`, everything else is collapsed into `other`
with its numeric code. -/
inductive Method where
  | store
  | deflate
  | other (code : Nat)
deriving DecidableEq, Repr

/-- The per-page archive record kept by the serving plane
(`MiniZipEntry`): compression method, absolute data offset into the
archive, compressed and uncompressed sizes.  The `data_offset` field is
the one read by `Shared::serve_page` in `src/server.rs`. -/
structure MiniZipEntry where
  method : Method
  data_offset : Nat
  compressed_size : Nat
  uncompressed_size : Nat
deriving DecidableEq, Repr

/-- Rust `Pages` from `src/load.rs`: a chapter's page source. -/
inductive Pages where
  | none
  | filesystem (v : List String)
  | zip (path : String) (entries : List MiniZipEntry)
deriving DecidableEq, Repr

instance : Inhabited Pages := ⟨Pages.none⟩

/-- The underlying page count of a `Pages` value (the `match` inside
`Pages::len` in `src/load.rs`, before the `u32` conversion). -/
def Pages.count : Pages → Nat
  | .none => 0
  | .filesystem v => v.length
  | .zip _ v => v.length

/-- Rust `usize -> u32` `TryInto`: succeeds exactly on values below `2^32`. -/
def tryIntoU32 (n : Nat) : Option Nat :=
  if n < 2 ^ 32 then some n else none

/-- Rust `Pages::len` from `src/load.rs`: the page count converted to `u32`;
the `.expect("over u32::MAX ... pages")` panic is modelled by `none`. -/
def Pages.len (p : Pages) : Option Nat :=
  tryIntoU32 p.count

/-- Rust `impl Serialize for Pages`: the wire `pages` field is
`serializer.serialize_u32(self.len())`. -/
def Pages.serialize (p : Pages) : Option Nat :=
  p.len

/-- Cover reference of a work (`Cover` as consumed by
`Shared::serve_cover` in `src/server.rs`): either a filesystem path or a
(chapter, page) address re-dispatched to the page handler. -/
inductive Cover where
  | file (path : String)
  | page (ch : Nat) (pg : Nat)
deriving DecidableEq, Repr

/-- Rust `MangaStatus` from `src/load.rs`. -/
inductive MangaStatus where
  | unknown
  | ongoing
  | completed
  | licensed
  | publishingFinished
  | cancelled
  | onHiatus
deriving DecidableEq, Repr

/-- Rust `impl From<MangaStatus> for u32` (the numeric wire codes 0..6). -/
def MangaStatus.toU32 : MangaStatus → Nat
  | .unknown => 0
  | .ongoing => 1
  | .completed => 2
  | .licensed => 3
  | .publishingFinished => 4
  | .cancelled => 5
  | .onHiatus => 6

/-- Rust `MangaStatus::is_unknown`. -/
def MangaStatus.isUnknown : MangaStatus → Bool
  | .unknown => true
  | _ => false

/-- Rust `Chapter` from `src/load.rs`: `path` is load-time only, `date` of 0
means unset, `pages` is filled in during loading. -/
structure Chapter where
  path : String
  title : String
  date : Nat
  pages : Pages
deriving DecidableEq, Repr

/-- Rust `Manga` from `src/load.rs`: the parsed descriptor.  The flat-list
fields (`description`, `authors`, `artists`, `tags`) are kept as the
joined string produced by the `TachiyomiList` deserializer. -/
structure Manga where
  id : String
  title : String
  cover : Option Cover
  status : MangaStatus
  description : String
  authors : String
  artists : String
  tags : String
  chapters : List Chapter
deriving DecidableEq, Repr

/-- The top-level field names emitted when serializing a `Manga` body,
following the `#[serde(skip_serializing)]` / `skip_serializing_if`
attributes in `src/load.rs`: `id` and `cover` are never serialized,
`status` is elided when `Unknown`, the flat-list fields when empty, and
`chapters` when empty. -/
def mangaSerFields (m : Manga) : List String :=
  ["title"]
    ++ (if m.status.isUnknown then [] else ["status"])
    ++ (if m.description = "" then [] else ["description"])
    ++ (if m.authors = "" then [] else ["authors"])
    ++ (if m.artists = "" then [] else ["artists"])
    ++ (if m.tags = "" then [] else ["tags"])
    ++ (if m.chapters.isEmpty then [] else ["chapters"])

/-- A wire value feeding the `TachiyomiList` deserializer: either a
single string or a sequence of strings. -/
inductive StrOrList where
  | str (s : String)
  | list (l : List String)
deriving DecidableEq, Repr

/-- The `TachiyomiList` deserializer from `src/load.rs`: a bare string
is taken as-is; a sequence starts from its first element (or the empty
string when the sequence is empty) and pushes `", "` then the element
for every further element. -/
def deserTachiyomiList : StrOrList → String
  | .str s => s
  | .list [] => ""
  | .list (x :: rest) => rest.foldl (fun acc v => acc ++ ", " ++ v) x

/-! ## Server-side model (`src/server.rs`) -/

/-- The `Accept-Encoding` header of a request, after the
`HeaderValue::to_str` decoding attempt: absent, present but not
ASCII-decodable, or present with a decoded value. -/
inductive AcceptEnc where
  | absent
  | undecodable
  | value (s : String)
deriving DecidableEq, Repr

/-- Byte-wise matching of `n` against the front of `l`. -/
def matchesFront : List Char → List Char → Bool
  | [], _ => true
  | _ :: _, [] => false
  | a :: as, b :: bs => a == b && matchesFront as bs

/-- Substring search on char lists (Rust `str::contains`). -/
def containsAux (n : List Char) : List Char → Bool
  | [] => n.isEmpty
  | l@(_ :: t) => matchesFront n l || containsAux n t

/-- Rust `str::contains(needle)` as used by the server for
`Accept-Encoding` negotiation. -/
def strContainsSub (hay needle : String) : Bool :=
  containsAux needle.toList hay.toList

/-- An HTTP response: status code, body bytes, and the two headers the
core ever sets. -/
structure Response where
  status : Nat
  body : List Nat
  contentType : Option String
  contentEncoding : Option String
deriving DecidableEq, Repr

/-- Rust `server::Error`: either a bare status code or a wrapped `anyhow`
error carrying a message. -/
inductive Error where
  | statusCode (code : Nat)
  | other (msg : String)
deriving DecidableEq, Repr

/-- Rust `Error::NOT_FOUND`. -/
def Error.notFound : Error := .statusCode 404

/-- Rust `Error::NOT_ACCEPTABLE`. -/
def Error.notAcceptable : Error := .statusCode 406

/-- Rust `Error::into_response`: a bare status code becomes an empty response
with that status; any other error is logged and becomes a 500. -/
def Error.into_response : Error → Response
  | .statusCode c => ⟨c, [], none, none⟩
  | .other _ => ⟨500, [], none, none⟩

/-- Rust `Error::with_context`: contexts wrap only the `Other` variant. -/
def Error.with_context (ctx : String) : Error → Error
  | .other m => .other (ctx ++ ": " ++ m)
  | e => e

/-- The `unwrap_or_else(Error::into_response)` at the top of
`Shared::serve`. -/
def responseOf (r : Except Error Response) : Response :=
  match r with
  | .ok v => v
  | .error e => e.into_response

/-- Rust `server::JsonBytes`: a pre-serialized JSON body plus an optional
pre-gzipped alternative. -/
structure JsonBytes where
  raw : List Nat
  gzip : Option (List Nat)
deriving DecidableEq, Repr

/-- Rust `JsonBytes::new` from `src/server.rs`.  `gz` stands for the flate2
`GzEncoder` round trip (an external collaborator): bodies of at most 64
bytes are never compressed; otherwise the gzip alternative is kept only
when strictly smaller than the raw body. -/
def JsonBytes.new (gz : List Nat → List Nat) (raw : List Nat) : JsonBytes :=
  if raw.length ≤ 64 then ⟨raw, none⟩
  else
    let g := gz raw
    ⟨raw, if g.length < raw.length then some g else none⟩

/-- Rust `JsonBytes::into_response`: 406 on an undecodable `Accept-Encoding`;
the gzip alternative with `Content-Encoding: gzip` when it exists and the
decoded header contains `gzip`; the raw bytes otherwise.  Either way the
response is JSON-typed. -/
def JsonBytes.into_response (j : JsonBytes) (accept : AcceptEnc) :
    Except Error Response :=
  match accept with
  | .absent => .ok ⟨200, j.raw, some "application/json", none⟩
  | .undecodable => .error Error.notAcceptable
  | .value s =>
    match j.gzip, strContainsSub s "gzip" with
    | some g, true => .ok ⟨200, g, some "application/json", some "gzip"⟩
    | some _, false => .ok ⟨200, j.raw, some "application/json", none⟩
    | none, _ => .ok ⟨200, j.raw, some "application/json", none⟩

/-- Rust `ChapterEntry` from `src/load.rs`. -/
structure ChapterEntry where
  pages : Pages
deriving DecidableEq, Repr

/-- Rust `MangaEntry` as consumed by the serving plane: pre-serialized body,
optional cover reference, chapter list. -/
structure MangaEntry where
  json : JsonBytes
  cover : Option Cover
  chapters : List ChapterEntry
deriving DecidableEq, Repr

/-- Rust `LibraryEntry` as consumed by the serving plane: the library-listing
body and the id-keyed map of works (the `HashMap` is modelled as an
association list whose most recent insert shadows older ones). -/
structure LibraryEntry where
  json : JsonBytes
  mangas : List (String × MangaEntry)
deriving DecidableEq, Repr

/-- Rust `HashMap::insert`: the new binding replaces any previous binding of
the same key. -/
def mapInsert (m : List (String × MangaEntry)) (k : String) (v : MangaEntry) :
    List (String × MangaEntry) :=
  (k, v) :: m.filter (fun p => p.fst ≠ k)

/-- Rust `HashMap::get`. -/
def mapGet (m : List (String × MangaEntry)) (k : String) : Option MangaEntry :=
  (m.find? (fun p => p.fst = k)).map Prod.snd

/-- The `Accept-Encoding` probe in the `Deflate` arm of
`Shared::serve_page`: absent means no `deflate`, an undecodable header is
a 406, otherwise Rust `contains("deflate")` decides. -/
def acceptsDeflate : AcceptEnc → Except Error Bool
  | .absent => .ok false
  | .undecodable => .error Error.notAcceptable
  | .value s => .ok (strContainsSub s "deflate")

/-- Error-context text used by `Shared::serve_page` for archive pages. -/
def pageCtx (path : String) : String :=
  path ++ ": error opening page"

/-- Rust `Shared::serve_page` from `src/server.rs`.  `fs` maps a path to its
byte contents (`none` models an I/O failure), `inflate` is the flate2
`DeflateDecoder` (an external collaborator; `none` models a decode
failure).  For an archive page the file is opened, the reader seeks to
the entry's `data_offset` and is clamped to `compressed_size` bytes;
`Store` bytes are copied verbatim, `Deflate` bytes are passed through
raw (with `Content-Encoding: deflate`) when the client accepts deflate
and decompressed otherwise, and any other method is a server error. -/
def serve_page (fs : String → Option (List Nat))
    (inflate : List Nat → Option (List Nat)) (accept : AcceptEnc)
    (manga : MangaEntry) (ch pg : Nat) : Except Error Response :=
  match manga.chapters[ch]? with
  | none => .error Error.notFound
  | some chapter =>
    match chapter.pages with
    | .none => .error Error.notFound
    | .filesystem pages =>
      match pages[pg]? with
      | none => .error Error.notFound
      | some page =>
        match fs page with
        | some bytes => .ok ⟨200, bytes, none, none⟩
        | none => .error (Error.other (page ++ ": error opening page"))
    | .zip path pages =>
      match pages[pg]? with
      | none => .error Error.notFound
      | some page =>
        match fs path with
        | none => .error (Error.other (pageCtx path))
        | some content =>
          let clamped :=
            (content.drop page.data_offset).take page.compressed_size
          match page.method with
          | .store => .ok ⟨200, clamped, none, none⟩
          | .deflate =>
            match acceptsDeflate accept with
            | .error err => .error err
            | .ok true => .ok ⟨200, clamped, none, some "deflate"⟩
            | .ok false =>
              match inflate clamped with
              | some out => .ok ⟨200, out, none, none⟩
              | none => .error (Error.other (pageCtx path))
          | .other _ =>
            .error
              (Error.other (pageCtx path ++ ": unsupported compression type"))

/-- Rust `Shared::serve_cover`: 404 without a cover; a `File` cover is read
from disk; a `Page` cover re-dispatches to `serve_page`, wrapping only
error contexts. -/
def serve_cover (fs : String → Option (List Nat))
    (inflate : List Nat → Option (List Nat)) (accept : AcceptEnc)
    (manga : MangaEntry) : Except Error Response :=
  match manga.cover with
  | none => .error Error.notFound
  | some (.file path) =>
    match fs path with
    | some bytes => .ok ⟨200, bytes, none, none⟩
    | none => .error (Error.other (path ++ ": error opening cover"))
  | some (.page ch pg) =>
    (serve_page fs inflate accept manga ch pg).mapError
      (Error.with_context "error opening cover")

/-- Rust `Shared::serve_lib`. -/
def serve_lib (lib : LibraryEntry) (accept : AcceptEnc) :
    Except Error Response :=
  lib.json.into_response accept

/-- Rust `Shared::serve_manga`. -/
def serve_manga (manga : MangaEntry) (accept : AcceptEnc) :
    Except Error Response :=
  manga.json.into_response accept

/-- Rust `usize::from_str` on a path segment: an optional leading `+`
then one or more ASCII digits (overflow is ignored by the model). -/
def parseNat (s : String) : Option Nat :=
  let cs := match s.toList with
    | '+' :: rest => rest
    | cs => cs
  if cs.isEmpty || !cs.all Char.isDigit then none
  else some (cs.foldl (fun a c => 10 * a + (c.toNat - 48)) 0)

/-- Rust `Shared::route` from `src/server.rs`.  `segs` is the request path
split on `/` with the first (empty) segment skipped.  Non-GET methods
are 405; an empty or missing first segment serves the listing; unknown
works, non-numeric indices and extra segments are 404. -/
def route (fs : String → Option (List Nat))
    (inflate : List Nat → Option (List Nat)) (lib : LibraryEntry)
    (method : String) (segs : List String) (accept : AcceptEnc) :
    Except Error Response := do
  if method ≠ "GET" then throw (Error.statusCode 405)
  match segs with
  | [] => serve_lib lib accept
  | "" :: _ => serve_lib lib accept
  | mangaId :: rest =>
    let some manga := mapGet lib.mangas mangaId | throw Error.notFound
    match rest with
    | [] => serve_manga manga accept
    | "cover" :: rest2 =>
      if rest2.isEmpty then serve_cover fs inflate accept manga
      else throw Error.notFound
    | chS :: rest2 =>
      let some ch := parseNat chS | throw Error.notFound
      match rest2 with
      | [] => throw Error.notFound
      | pgS :: rest3 =>
        let some pg := parseNat pgS | throw Error.notFound
        if rest3.isEmpty then serve_page fs inflate accept manga ch pg
        else throw Error.notFound

/-! ## Zip page index (`load_pages_zip`)

The central-directory parse itself is an external collaborator (rc_zip);
its per-entry output is modelled by `RawZipEntry`.  The data-offset
computation is part of this repository's loader but its source file is
not among the provided sources (only the spec and its consumer
`Shared::serve_page` are), so it is modelled from the spec. -/

/-- A central-directory entry as yielded by the external zip parser:
name, whether it is a plain file, and the header fields the loader
keeps. -/
structure RawZipEntry where
  name : String
  isFile : Bool
  method : Method
  header_offset : Nat
  compressed_size : Nat
  uncompressed_size : Nat
deriving DecidableEq, Repr

/-- A 16-bit little-endian read from the archive bytes at `off`
(out-of-range bytes read as 0). -/
def readU16 (archive : List Nat) (off : Nat) : Nat :=
  archive.getD off 0 % 256 + 256 * (archive.getD (off + 1) 0 % 256)

/-- Modelled from the spec: the loader's data-offset computation, whose
source file is not among the provided sources.  It reads the 16-bit name
length and extra-length fields of the local header at
`header_offset + 26` and `header_offset + 28` and sums
`header_offset + 30 + name_len + extra_len`. -/
def dataOffsetOf (archive : List Nat) (e : RawZipEntry) : Nat :=
  e.header_offset + 30 + readU16 archive (e.header_offset + 26)
    + readU16 archive (e.header_offset + 28)

/-- Rust `MiniZipEntry::new`: record method, data offset and sizes for one
central-directory entry. -/
def MiniZipEntry.new (archive : List Nat) (e : RawZipEntry) : MiniZipEntry :=
  ⟨e.method, dataOffsetOf archive e, e.compressed_size, e.uncompressed_size⟩

/-- Bool-valued byte-order comparison of names (Rust `&str` ordering;
UTF-8 byte order coincides with code-point order). -/
def charListLe : List Char → List Char → Bool
  | [], _ => true
  | _ :: _, [] => false
  | a :: as, b :: bs =>
    Nat.blt a.toNat b.toNat || (Nat.beq a.toNat b.toNat && charListLe as bs)

/-- Name comparison for the `sort_unstable_by_key(|(v, _)| *v)` in
`load_pages_zip`. -/
def nameLe (a b : String × MiniZipEntry) : Bool :=
  charListLe a.fst.toList b.fst.toList

/-- The page table built by `load_pages_zip`: keep only file entries,
record each via `MiniZipEntry::new`, sort by name byte-order, drop the
names. -/
def zipEntries (archive : List Nat) (raws : List RawZipEntry) :
    List MiniZipEntry :=
  let entries := (raws.filter (fun e => e.isFile)).map
    (fun e => (e.name, MiniZipEntry.new archive e))
  (entries.mergeSort nameLe).map Prod.snd

/-- Rust `load_pages_zip` from `src/load.rs`: the chapter's page source is
the archive path together with its sorted page table. -/
def load_pages_zip (path : String) (archive : List Nat)
    (raws : List RawZipEntry) : Pages :=
  Pages.zip path (zipEntries archive raws)

/-! ## Library loader (`load_library`, `load_manga` in `src/load.rs`) -/

/-- Outcome of `File::open`: contents, `NotFound`, or any other I/O
error. -/
inductive OpenResult where
  | ok (contents : List Nat)
  | notFound
  | otherErr (msg : String)
deriving DecidableEq, Repr

/-- The descriptor file name pushed onto the work directory by
`load_manga` (`src/load.rs` line 84). -/
def descriptorFileName : String := "info.json"

/-- Modelled from the spec: parsing of the `cover` descriptor field,
whose deserializer source file is not among the provided sources.  A
string is a `File` cover; an inline table needs fields `ch` and `pg`
(with aliases `chapter` and `page`). -/
inductive CoverToml where
  | str (s : String)
  | table (fields : List (String × Nat))
deriving DecidableEq, Repr

/-- First binding of a key in a TOML inline table. -/
def lookupField (fields : List (String × Nat)) (k : String) : Option Nat :=
  (fields.find? (fun p => p.fst == k)).map Prod.snd

/-- Modelled from the spec: the `cover` field deserializer (string →
`File`; inline table with `ch`/`pg`, aliases `chapter`/`page`, →
`Page`). -/
def parseCover : CoverToml → Except String Cover
  | .str s => .ok (.file s)
  | .table fields =>
    match (lookupField fields "ch").orElse (fun _ => lookupField fields "chapter"),
        (lookupField fields "pg").orElse (fun _ => lookupField fields "page") with
    | some c, some p => .ok (.page c p)
    | _, _ => .error "cover table missing ch or pg"

/-- Load-time cover resolution: a `File` cover path is rewritten to an
absolute path under the work directory (`load_manga` pushes the relative
path onto the work dir); a `Page` cover is untouched. -/
def resolveCover (dir : String) : Cover → Cover
  | .file s => .file (dir ++ "/" ++ s)
  | c => c

/-- Rust `load_manga` from `src/load.rs`: open the descriptor inside `dir`;
`NotFound` yields `none` (walk keeps descending), any other open failure
yields `some (error _)`; otherwise parse the descriptor (`parse`, the
external TOML deserializer), resolve every chapter's pages
(`resolveCh`, abstracting `load_chapter`) and resolve the cover. -/
def load_manga (fs : String → OpenResult)
    (parse : List Nat → Except String Manga)
    (resolveCh : String → String → Except String Pages) (dir : String) :
    Option (Except String Manga) :=
  match fs (dir ++ "/" ++ descriptorFileName) with
  | .notFound => none
  | .otherErr e => some (.error e)
  | .ok contents =>
    some (do
      let m ← parse contents
      let chs ← m.chapters.mapM (fun c => do
        let pgs ← resolveCh dir c.path
        pure { c with pages := pgs })
      pure { m with
        chapters := chs
        cover := m.cover.map (resolveCover dir) })

/-- One step of the library walk: either a traversal error from the
walker or a visited directory. -/
inductive WalkEntry where
  | err (msg : String)
  | dir (path : String)
deriving DecidableEq, Repr

/-- The loader's accumulating state: the library-listing buffer (bytes)
and the id-keyed map of works. -/
structure LoadState where
  lib_buf : List Nat
  mangas : List (String × MangaEntry)
deriving DecidableEq, Repr

/-- One serde_json string escape (`\" \\ \b \t \n \f \r`, `\u00XX` for
other control characters). -/
def jsonEscapeChar (c : Char) : String :=
  if c = '"' then "\\\""
  else if c = '\\' then "\\\\"
  else if c = '\x08' then "\\b"
  else if c = '\x09' then "\\t"
  else if c = '\x0a' then "\\n"
  else if c = '\x0c' then "\\f"
  else if c = '\x0d' then "\\r"
  else if c.toNat < 32 then
    "\\u00" ++ String.singleton (Nat.digitChar (c.toNat / 16))
      ++ String.singleton (Nat.digitChar (c.toNat % 16))
  else String.singleton c

/-- A serde_json string literal. -/
def jsonString (s : String) : String :=
  "\"" ++ String.join (s.toList.map jsonEscapeChar) ++ "\""

/-- UTF-8 bytes of a string. -/
def strBytes (s : String) : List Nat :=
  s.toUTF8.toList.map UInt8.toNat

/-- The bytes `serde_json::to_writer` appends for one `LibraryEntrySer`
(the `{id, title}` struct serialized inside `load_library`). -/
def serLibEntry (m : Manga) : List Nat :=
  strBytes ("\x7b\"id\":" ++ jsonString m.id ++ ",\"title\":"
    ++ jsonString m.title ++ "\x7d")

/-- One iteration of the `while let` loop in `load_library`.  The buffer
length is captured first; a walker error or a failed work truncates the
buffer back to it (leaving the state unchanged, since only this
iteration appends) and the scan continues.  A loaded work appends its
listing entry plus a comma and is inserted into the map (`entryNew`
abstracts `MangaEntry::new`, whose body serialization can fail). -/
def load_step (fs : String → OpenResult)
    (parse : List Nat → Except String Manga)
    (resolveCh : String → String → Except String Pages)
    (entryNew : Manga → Except String MangaEntry)
    (st : LoadState) (ev : WalkEntry) : LoadState :=
  match ev with
  | .err _ => st
  | .dir path =>
    match load_manga fs parse resolveCh path with
    | none => st
    | some (.error _) => st
    | some (.ok m) =>
      match entryNew m with
      | .ok e =>
        ⟨st.lib_buf ++ serLibEntry m ++ [44], mapInsert st.mangas m.id e⟩
      | .error _ => st

/-- Whether the walk prunes the subtree of this directory
(`walk.skip_current_dir()` runs exactly when `load_manga` returns
`Some`). -/
def walkSkipsDir (fs : String → OpenResult)
    (parse : List Nat → Except String Manga)
    (resolveCh : String → String → Except String Pages) (dir : String) :
    Bool :=
  (load_manga fs parse resolveCh dir).isSome

/-- The fold of `load_step` over the walk. -/
def loadFold (fs : String → OpenResult)
    (parse : List Nat → Except String Manga)
    (resolveCh : String → String → Except String Pages)
    (entryNew : Manga → Except String MangaEntry)
    (st : LoadState) (events : List WalkEntry) : LoadState :=
  events.foldl (load_step fs parse resolveCh entryNew) st

/-- Rust `load_library` from `src/load.rs`: start the buffer at `[`, fold the
walk, pop a trailing comma if present, close with `]`; return the
listing bytes and the work map. -/
def load_library (fs : String → OpenResult)
    (parse : List Nat → Except String Manga)
    (resolveCh : String → String → Except String Pages)
    (entryNew : Manga → Except String MangaEntry)
    (events : List WalkEntry) : List Nat × List (String × MangaEntry) :=
  let st := loadFold fs parse resolveCh entryNew ⟨[91], []⟩ events
  let buf := match st.lib_buf.getLast? with
    | some 44 => st.lib_buf.dropLast
    | _ => st.lib_buf
  (buf ++ [93], st.mangas)

/-! ## Claims -/

/-- C7: deserializing a FlatList field from the single string `"a"` and
from the one-element list `["a"]` both yield `"a"`; `["a","b","c"]`
yields `"a, b, c"` (joined with comma-space); the empty list yields the
empty string, and an empty flat-list field is elided from the serialized
wire body. -/
theorem flat_list_roundtrip :
    ∀ m : Manga,
    deserTachiyomiList (.str "a") = "a"
    ∧ deserTachiyomiList (.list ["a"]) = "a"
    ∧ deserTachiyomiList (.list ["a", "b", "c"]) = "a, b, c"
    ∧ deserTachiyomiList (.list []) = ""
    ∧ "description" ∉ mangaSerFields
        { m with description := deserTachiyomiList (.list []) }
    ∧ "authors" ∉ mangaSerFields
        { m with authors := deserTachiyomiList (.list []) }
    ∧ "artists" ∉ mangaSerFields
        { m with artists := deserTachiyomiList (.list []) }
    ∧ "tags" ∉ mangaSerFields
        { m with tags := deserTachiyomiList (.list []) } := by
  intro m
  refine ⟨rfl, rfl, rfl, rfl, ?_, ?_, ?_, ?_⟩ <;>
    · simp only [mangaSerFields, deserTachiyomiList, List.mem_append]
      split_ifs <;> simp_all

/-- C8: the serialized `pages` field of a chapter equals the number of
entries in its page source (0 for `None`, the sequence length for
`Filesystem` and `Zip`), except that the `u32` conversion panics
(modelled by `none`) exactly when the count exceeds `u32::MAX`
(i.e. reaches `2 ^ 32`). -/
theorem pages_count_serialization :
    ∀ (p : Pages) (path : String) (v : List String) (es : List MiniZipEntry),
    Pages.serialize p = (if p.count < 2 ^ 32 then some p.count else none)
    ∧ Pages.count .none = 0
    ∧ (Pages.filesystem v).count = v.length
    ∧ (Pages.zip path es).count = es.length := by
  intro p path v es
  exact ⟨rfl, rfl, rfl, rfl⟩

/-- C6: a gzip alternative of a JSON body is kept exactly when the raw
length exceeds 64 bytes and the compressed form is strictly smaller; a
JSON response carries the gzip alternative with `Content-Encoding: gzip`
exactly when the alternative was retained and the decoded
`Accept-Encoding` contains `gzip`, otherwise the raw bytes with no
`Content-Encoding`; every successful JSON response is typed
`application/json`. -/
theorem json_gzip_negotiation :
    ∀ (gz : List Nat → List Nat) (raw : List Nat) (j : JsonBytes) (s : String),
    (JsonBytes.new gz raw).raw = raw
    ∧ ((JsonBytes.new gz raw).gzip =
        if raw.length ≤ 64 then none
        else if (gz raw).length < raw.length then some (gz raw) else none)
    ∧ j.into_response .absent = .ok ⟨200, j.raw, some "application/json", none⟩
    ∧ (j.into_response (.value s) = .ok (
        match j.gzip, strContainsSub s "gzip" with
        | some g, true => ⟨200, g, some "application/json", some "gzip"⟩
        | some _, false => ⟨200, j.raw, some "application/json", none⟩
        | none, _ => ⟨200, j.raw, some "application/json", none⟩)) := by
  intro gz raw j s
  refine ⟨?_, ?_, ?_, ?_⟩
  · simp only [JsonBytes.new]
    split <;> rfl
  · simp only [JsonBytes.new]
    split <;> rfl
  · rfl
  · cases h : j.gzip <;> cases hb : strContainsSub s "gzip" <;>
      simp only [JsonBytes.into_response, h, hb]

/-- A minimal descriptor used for concrete evaluations. -/
def mkManga (id title : String) : Manga :=
  ⟨id, title, none, .unknown, "", "", "", "", []⟩

/-- C2 counterexample: a directory holding a readable `info.toml` (and
no `info.json`) is not treated as a work root — `load_manga` reports a
missing descriptor (`none`), because the loader opens `info.json`, not
`info.toml` as the claim states. -/
theorem descriptor_name_counterexample :
    (fun p => if p = "d/info.toml" then OpenResult.ok [105] else .notFound)
        "d/info.toml" = .ok [105]
    ∧ load_manga
        (fun p => if p = "d/info.toml" then OpenResult.ok [105] else .notFound)
        (fun _ => .ok (mkManga "w" "W")) (fun _ _ => .ok .none) "d" = none
    ∧ descriptorFileName ≠ "info.toml" := by
  refine ⟨rfl, rfl, ?_⟩
  decide

/-- C2 (amended): at every directory visited the loader attempts to open
the file named `info.json` (not `info.toml`) inside it; a `NotFound`
failure yields no work and no subtree pruning (the walk keeps
descending), and any other open failure is reported as a work error
whose loop iteration leaves the loader state unchanged (logged and
skipped, no store insertion, scan not aborted). -/
theorem descriptor_open_behavior :
    ∀ (fs : String → OpenResult) (parse : List Nat → Except String Manga)
      (resolveCh : String → String → Except String Pages)
      (entryNew : Manga → Except String MangaEntry) (st : LoadState)
      (d e : String),
    descriptorFileName = "info.json"
    ∧ (fs (d ++ "/" ++ descriptorFileName) = .notFound →
        load_manga fs parse resolveCh d = none
        ∧ walkSkipsDir fs parse resolveCh d = false)
    ∧ (fs (d ++ "/" ++ descriptorFileName) = .otherErr e →
        load_manga fs parse resolveCh d = some (.error e)
        ∧ load_step fs parse resolveCh entryNew st (.dir d) = st
        ∧ walkSkipsDir fs parse resolveCh d = true) := by
  intro fs parse resolveCh entryNew st d e
  refine ⟨rfl, fun h => ⟨?_, ?_⟩, fun h => ⟨?_, ?_, ?_⟩⟩ <;>
    simp [load_manga, walkSkipsDir, load_step, h]

/-- C2 witness: `descriptor_open_behavior` at a concrete filesystem with
one missing and one unreadable descriptor. -/
theorem descriptor_open_behavior_witness :
    (load_manga
        (fun p => if p = "b/info.json" then OpenResult.otherErr "denied"
          else .notFound)
        (fun _ => .ok (mkManga "w" "W")) (fun _ _ => .ok .none) "a" = none
      ∧ walkSkipsDir
        (fun p => if p = "b/info.json" then OpenResult.otherErr "denied"
          else .notFound)
        (fun _ => .ok (mkManga "w" "W")) (fun _ _ => .ok .none) "a" = false)
    ∧ load_manga
        (fun p => if p = "b/info.json" then OpenResult.otherErr "denied"
          else .notFound)
        (fun _ => .ok (mkManga "w" "W")) (fun _ _ => .ok .none) "b"
        = some (.error "denied")
    ∧ load_step
        (fun p => if p = "b/info.json" then OpenResult.otherErr "denied"
          else .notFound)
        (fun _ => .ok (mkManga "w" "W")) (fun _ _ => .ok .none)
        (fun _m => .ok ⟨⟨[], none⟩, none, []⟩) ⟨[91], []⟩ (.dir "b")
        = ⟨[91], []⟩ := by
  have t1 := descriptor_open_behavior
    (fun p => if p = "b/info.json" then OpenResult.otherErr "denied"
      else .notFound)
    (fun _ => .ok (mkManga "w" "W")) (fun _ _ => .ok .none)
    (fun _m => .ok ⟨⟨[], none⟩, none, []⟩) ⟨[91], []⟩ "a" "denied"
  have t2 := descriptor_open_behavior
    (fun p => if p = "b/info.json" then OpenResult.otherErr "denied"
      else .notFound)
    (fun _ => .ok (mkManga "w" "W")) (fun _ _ => .ok .none)
    (fun _m => .ok ⟨⟨[], none⟩, none, []⟩) ⟨[91], []⟩ "b" "denied"
  have h2 := t2.2.2 (by rfl)
  exact ⟨t1.2.1 (by rfl), h2.1, h2.2.1⟩

/-- C3: a work that fails (descriptor open or parse error, chapter
resolution error, or per-work serialization error in `MangaEntry::new`)
leaves the loader state exactly as it was before its directory was
visited: the listing buffer is truncated back to its pre-entry length
(hence equal to its prior contents), the work is never inserted into the
id map, and the fold over the remaining walk continues unchanged, so the
failed work leaves no trace in the listing JSON. -/
theorem failed_work_rollback :
    ∀ (fs : String → OpenResult) (parse : List Nat → Except String Manga)
      (resolveCh : String → String → Except String Pages)
      (entryNew : Manga → Except String MangaEntry)
      (evs1 evs2 : List WalkEntry) (st0 : LoadState) (d : String),
    ((∃ e, load_manga fs parse resolveCh d = some (.error e))
      ∨ (∃ m e, load_manga fs parse resolveCh d = some (.ok m)
          ∧ entryNew m = .error e)) →
    (∀ st : LoadState, load_step fs parse resolveCh entryNew st (.dir d) = st)
    ∧ loadFold fs parse resolveCh entryNew st0 (evs1 ++ .dir d :: evs2)
        = loadFold fs parse resolveCh entryNew st0 (evs1 ++ evs2)
    ∧ load_library fs parse resolveCh entryNew (evs1 ++ .dir d :: evs2)
        = load_library fs parse resolveCh entryNew (evs1 ++ evs2) := by
  intro fs parse resolveCh entryNew evs1 evs2 st0 d hfail
  have hstep : ∀ st : LoadState,
      load_step fs parse resolveCh entryNew st (.dir d) = st := by
    intro st
    rcases hfail with ⟨e, he⟩ | ⟨m, e, hm, he⟩
    · simp [load_step, he]
    · simp [load_step, hm, he]
  have hfold : ∀ st : LoadState,
      loadFold fs parse resolveCh entryNew st (evs1 ++ .dir d :: evs2)
        = loadFold fs parse resolveCh entryNew st (evs1 ++ evs2) := by
    intro st
    simp only [loadFold, List.foldl_append, List.foldl_cons]
    rw [hstep]
  exact ⟨hstep, hfold st0, by simp only [load_library, hfold]⟩

/-- C3 witness: `failed_work_rollback` with a concretely failing parse
between two well-formed sibling directories. -/
theorem failed_work_rollback_witness :
    (∀ st : LoadState,
      load_step (fun _ => OpenResult.ok [1])
        (fun b => if b = [1] then .error "bad toml" else .ok (mkManga "w" "W"))
        (fun _ _ => .ok .none) (fun _m => .ok ⟨⟨[], none⟩, none, []⟩)
        st (.dir "bad") = st)
    ∧ loadFold (fun _ => OpenResult.ok [1])
        (fun b => if b = [1] then .error "bad toml" else .ok (mkManga "w" "W"))
        (fun _ _ => .ok .none) (fun _m => .ok ⟨⟨[], none⟩, none, []⟩)
        ⟨[91], []⟩ ([.err "x"] ++ .dir "bad" :: [.err "y"])
        = loadFold (fun _ => OpenResult.ok [1])
          (fun b => if b = [1] then .error "bad toml" else .ok (mkManga "w" "W"))
          (fun _ _ => .ok .none) (fun _m => .ok ⟨⟨[], none⟩, none, []⟩)
          ⟨[91], []⟩ ([.err "x"] ++ [.err "y"])
    ∧ load_library (fun _ => OpenResult.ok [1])
        (fun b => if b = [1] then .error "bad toml" else .ok (mkManga "w" "W"))
        (fun _ _ => .ok .none) (fun _m => .ok ⟨⟨[], none⟩, none, []⟩)
        ([.err "x"] ++ .dir "bad" :: [.err "y"])
        = load_library (fun _ => OpenResult.ok [1])
          (fun b => if b = [1] then .error "bad toml" else .ok (mkManga "w" "W"))
          (fun _ _ => .ok .none) (fun _m => .ok ⟨⟨[], none⟩, none, []⟩)
          ([.err "x"] ++ [.err "y"]) :=
  failed_work_rollback (fun _ => OpenResult.ok [1])
    (fun b => if b = [1] then .error "bad toml" else .ok (mkManga "w" "W"))
    (fun _ _ => .ok .none) (fun _m => .ok ⟨⟨[], none⟩, none, []⟩)
    [.err "x"] [.err "y"] ⟨[91], []⟩ "bad"
    (Or.inl ⟨"bad toml", by rfl⟩)

/-- C10: when two visited directories load works carrying the same id,
each occurrence appends its own `{id, title}` entry (plus the separating
comma) to the library-listing buffer, while the id map retains only the
later work — `HashMap::insert` overwrites the earlier binding.  The
loader is a pure function of the traversal order, so the outcome is
deterministic for a given walk. -/
theorem duplicate_id_behavior :
    ∀ (fs : String → OpenResult) (parse : List Nat → Except String Manga)
      (resolveCh : String → String → Except String Pages)
      (entryNew : Manga → Except String MangaEntry) (d1 d2 : String)
      (m1 m2 : Manga) (e1 e2 : MangaEntry) (st : LoadState),
    load_manga fs parse resolveCh d1 = some (.ok m1) →
    load_manga fs parse resolveCh d2 = some (.ok m2) →
    m1.id = m2.id →
    entryNew m1 = .ok e1 → entryNew m2 = .ok e2 →
    (loadFold fs parse resolveCh entryNew st [.dir d1, .dir d2]).lib_buf
      = st.lib_buf ++ serLibEntry m1 ++ [44] ++ serLibEntry m2 ++ [44]
    ∧ mapGet
        (loadFold fs parse resolveCh entryNew st [.dir d1, .dir d2]).mangas
        m1.id
      = some e2 := by
  intro fs parse resolveCh entryNew d1 d2 m1 m2 e1 e2 st h1 h2 hid hn1 hn2
  have hfold : loadFold fs parse resolveCh entryNew st [.dir d1, .dir d2]
      = ⟨st.lib_buf ++ serLibEntry m1 ++ [44] ++ serLibEntry m2 ++ [44],
          mapInsert (mapInsert st.mangas m1.id e1) m2.id e2⟩ := by
    simp [loadFold, load_step, h1, h2, hn1, hn2]
  rw [hfold]
  refine ⟨rfl, ?_⟩
  simp [mapGet, mapInsert, List.find?, hid]

/-- C10 witness: `duplicate_id_behavior` at two concrete directories
whose descriptors share the id `w` but have distinct titles and distinct
store entries; both listing entries appear, the map keeps the second. -/
theorem duplicate_id_behavior_witness :
    (loadFold
        (fun p => if p = "d1/info.json" then OpenResult.ok [1]
          else if p = "d2/info.json" then OpenResult.ok [2] else .notFound)
        (fun b => if b = [1] then .ok (mkManga "w" "A")
          else .ok (mkManga "w" "B"))
        (fun _ _ => .ok .none)
        (fun m => .ok ⟨⟨strBytes m.title, none⟩, none, []⟩)
        ⟨[91], []⟩ [.dir "d1", .dir "d2"]).lib_buf
      = [91] ++ serLibEntry (mkManga "w" "A") ++ [44]
          ++ serLibEntry (mkManga "w" "B") ++ [44]
    ∧ mapGet (loadFold
        (fun p => if p = "d1/info.json" then OpenResult.ok [1]
          else if p = "d2/info.json" then OpenResult.ok [2] else .notFound)
        (fun b => if b = [1] then .ok (mkManga "w" "A")
          else .ok (mkManga "w" "B"))
        (fun _ _ => .ok .none)
        (fun m => .ok ⟨⟨strBytes m.title, none⟩, none, []⟩)
        ⟨[91], []⟩ [.dir "d1", .dir "d2"]).mangas "w"
      = some ⟨⟨strBytes "B", none⟩, none, []⟩ :=
  duplicate_id_behavior
    (fun p => if p = "d1/info.json" then OpenResult.ok [1]
      else if p = "d2/info.json" then OpenResult.ok [2] else .notFound)
    (fun b => if b = [1] then .ok (mkManga "w" "A")
      else .ok (mkManga "w" "B"))
    (fun _ _ => .ok .none)
    (fun m => .ok ⟨⟨strBytes m.title, none⟩, none, []⟩)
    "d1" "d2" (mkManga "w" "A") (mkManga "w" "B")
    ⟨⟨strBytes "A", none⟩, none, []⟩ ⟨⟨strBytes "B", none⟩, none, []⟩
    ⟨[91], []⟩ (by rfl) (by rfl) (by rfl) (by rfl) (by rfl)

/-- C4: descriptor parsing accepts a cover as an inline table with
fields `ch` and `pg` (or their aliases `chapter` and `page`) or as a
string; a string cover resolves at load time to a path under the work
directory; and for a work whose cover is in page form, the cover handler
returns exactly the response of the page handler for those indices (so
`GET /<w>/cover` and `GET /<w>/<ch>/<pg>` serve the same body bytes). -/
theorem cover_forms :
    ∀ (c p : Nat) (s dir : String) (fs : String → Option (List Nat))
      (inflate : List Nat → Option (List Nat)) (accept : AcceptEnc)
      (manga : MangaEntry) (ch pg : Nat) (r : Response),
    parseCover (.table [("ch", c), ("pg", p)]) = .ok (.page c p)
    ∧ parseCover (.table [("chapter", c), ("page", p)]) = .ok (.page c p)
    ∧ parseCover (.str s) = .ok (.file s)
    ∧ resolveCover dir (.file s) = .file (dir ++ "/" ++ s)
    ∧ (manga.cover = some (.page ch pg) →
        serve_page fs inflate accept manga ch pg = .ok r →
        serve_cover fs inflate accept manga = .ok r) := by
  intro c p s dir fs inflate accept manga ch pg r
  refine ⟨rfl, rfl, rfl, rfl, fun hcov hpage => ?_⟩
  simp [serve_cover, hcov, hpage, Except.mapError]

/-- C4 witness: `cover_forms` at a one-chapter work whose cover is
`{ ch = 0, pg = 0 }`; the cover response equals the page response. -/
theorem cover_forms_witness :
    parseCover (.table [("ch", 1), ("pg", 2)]) = .ok (.page 1 2)
    ∧ parseCover (.table [("chapter", 1), ("page", 2)]) = .ok (.page 1 2)
    ∧ parseCover (.str "c.jpg") = .ok (.file "c.jpg")
    ∧ resolveCover "lib/w" (.file "c.jpg") = .file ("lib/w" ++ "/" ++ "c.jpg")
    ∧ serve_cover (fun q => if q = "p0" then some [7, 8] else none)
        (fun _ => none) .absent
        ⟨⟨[], none⟩, some (.page 0 0), [⟨Pages.filesystem ["p0"]⟩]⟩
        = .ok ⟨200, [7, 8], none, none⟩ := by
  have t := cover_forms 1 2 "c.jpg" "lib/w"
    (fun q => if q = "p0" then some [7, 8] else none) (fun _ => none) .absent
    ⟨⟨[], none⟩, some (.page 0 0), [⟨Pages.filesystem ["p0"]⟩]⟩ 0 0
    ⟨200, [7, 8], none, none⟩
  exact ⟨t.1, t.2.1, t.2.2.1, t.2.2.2.1, t.2.2.2.2 (by rfl) (by rfl)⟩

/-- C5: for an archive page, the bytes read from the archive are exactly
the `compressed_size`-byte window starting at the entry's recorded data
offset; a `Store` entry is copied verbatim into the body; a `Deflate`
entry is passed through raw with `Content-Encoding: deflate` when the
decoded `Accept-Encoding` contains `deflate`, and otherwise runs through
the deflate decoder; any other method is a server error that renders as
a 500 response. -/
theorem archive_page_streaming :
    ∀ (fs : String → Option (List Nat))
      (inflate : List Nat → Option (List Nat)) (accept : AcceptEnc)
      (manga : MangaEntry) (ch pg : Nat) (path : String)
      (es : List MiniZipEntry) (e : MiniZipEntry) (content : List Nat)
      (s : String) (k : Nat),
    manga.chapters[ch]? = some ⟨Pages.zip path es⟩ →
    es[pg]? = some e →
    fs path = some content →
    (e.method = .store →
      serve_page fs inflate accept manga ch pg
        = .ok ⟨200, (content.drop e.data_offset).take e.compressed_size,
            none, none⟩)
    ∧ (e.method = .deflate → accept = .value s →
        strContainsSub s "deflate" = true →
      serve_page fs inflate accept manga ch pg
        = .ok ⟨200, (content.drop e.data_offset).take e.compressed_size,
            none, some "deflate"⟩)
    ∧ (e.method = .deflate → acceptsDeflate accept = .ok false →
      serve_page fs inflate accept manga ch pg
        = match inflate ((content.drop e.data_offset).take e.compressed_size)
            with
          | some out => .ok ⟨200, out, none, none⟩
          | none => .error (Error.other (pageCtx path)))
    ∧ (e.method = .other k →
      serve_page fs inflate accept manga ch pg
        = .error (Error.other (pageCtx path ++ ": unsupported compression type"))
      ∧ (responseOf (serve_page fs inflate accept manga ch pg)).status
          = 500) := by
  intro fs inflate accept manga ch pg path es e content s k hch hpg hfs
  refine ⟨fun hm => ?_, fun hm hacc hde => ?_, fun hm hacc => ?_,
    fun hm => ⟨?_, ?_⟩⟩
  · simp [serve_page, hch, hpg, hfs, hm]
  · subst hacc
    simp [serve_page, hch, hpg, hfs, hm, acceptsDeflate, hde]
  · simp only [serve_page, hch, hpg, hfs, hm, hacc]
  · simp [serve_page, hch, hpg, hfs, hm]
  · simp [serve_page, responseOf, Error.into_response, hch, hpg, hfs, hm]

/-- C5 witness: `archive_page_streaming` at a ten-byte archive, with a
`Store` entry, a `Deflate` entry under both negotiation outcomes, and an
unsupported-method entry. -/
theorem archive_page_streaming_witness :
    serve_page (fun q => if q = "z" then some [0, 1, 2, 3, 4, 5, 6, 7, 8, 9]
        else none) (fun _ => some [42]) .absent
      ⟨⟨[], none⟩, none, [⟨Pages.zip "z" [⟨.store, 2, 3, 3⟩]⟩]⟩ 0 0
      = .ok ⟨200, [2, 3, 4], none, none⟩
    ∧ serve_page (fun q => if q = "z" then some [0, 1, 2, 3, 4, 5, 6, 7, 8, 9]
        else none) (fun _ => some [42]) (.value "gzip, deflate")
      ⟨⟨[], none⟩, none, [⟨Pages.zip "z" [⟨.deflate, 4, 2, 9⟩]⟩]⟩ 0 0
      = .ok ⟨200, [4, 5], none, some "deflate"⟩
    ∧ serve_page (fun q => if q = "z" then some [0, 1, 2, 3, 4, 5, 6, 7, 8, 9]
        else none) (fun _ => some [42]) .absent
      ⟨⟨[], none⟩, none, [⟨Pages.zip "z" [⟨.deflate, 4, 2, 9⟩]⟩]⟩ 0 0
      = .ok ⟨200, [42], none, none⟩
    ∧ serve_page (fun q => if q = "z" then some [0, 1, 2, 3, 4, 5, 6, 7, 8, 9]
        else none) (fun _ => some [42]) .absent
      ⟨⟨[], none⟩, none, [⟨Pages.zip "z" [⟨.other 12, 0, 1, 1⟩]⟩]⟩ 0 0
      = .error (Error.other (pageCtx "z" ++ ": unsupported compression type"))
    ∧ (responseOf (serve_page
        (fun q => if q = "z" then some [0, 1, 2, 3, 4, 5, 6, 7, 8, 9]
          else none) (fun _ => some [42]) .absent
        ⟨⟨[], none⟩, none, [⟨Pages.zip "z" [⟨.other 12, 0, 1, 1⟩]⟩]⟩ 0 0)).status
      = 500 := by
  have t1 := archive_page_streaming
    (fun q => if q = "z" then some [0, 1, 2, 3, 4, 5, 6, 7, 8, 9] else none)
    (fun _ => some [42]) .absent
    ⟨⟨[], none⟩, none, [⟨Pages.zip "z" [⟨.store, 2, 3, 3⟩]⟩]⟩ 0 0 "z"
    [⟨.store, 2, 3, 3⟩] ⟨.store, 2, 3, 3⟩ [0, 1, 2, 3, 4, 5, 6, 7, 8, 9]
    "" 0 (by rfl) (by rfl) (by rfl)
  have t2 := archive_page_streaming
    (fun q => if q = "z" then some [0, 1, 2, 3, 4, 5, 6, 7, 8, 9] else none)
    (fun _ => some [42]) (.value "gzip, deflate")
    ⟨⟨[], none⟩, none, [⟨Pages.zip "z" [⟨.deflate, 4, 2, 9⟩]⟩]⟩ 0 0 "z"
    [⟨.deflate, 4, 2, 9⟩] ⟨.deflate, 4, 2, 9⟩ [0, 1, 2, 3, 4, 5, 6, 7, 8, 9]
    "gzip, deflate" 0 (by rfl) (by rfl) (by rfl)
  have t3 := archive_page_streaming
    (fun q => if q = "z" then some [0, 1, 2, 3, 4, 5, 6, 7, 8, 9] else none)
    (fun _ => some [42]) .absent
    ⟨⟨[], none⟩, none, [⟨Pages.zip "z" [⟨.deflate, 4, 2, 9⟩]⟩]⟩ 0 0 "z"
    [⟨.deflate, 4, 2, 9⟩] ⟨.deflate, 4, 2, 9⟩ [0, 1, 2, 3, 4, 5, 6, 7, 8, 9]
    "" 0 (by rfl) (by rfl) (by rfl)
  have t4 := archive_page_streaming
    (fun q => if q = "z" then some [0, 1, 2, 3, 4, 5, 6, 7, 8, 9] else none)
    (fun _ => some [42]) .absent
    ⟨⟨[], none⟩, none, [⟨Pages.zip "z" [⟨.other 12, 0, 1, 1⟩]⟩]⟩ 0 0 "z"
    [⟨.other 12, 0, 1, 1⟩] ⟨.other 12, 0, 1, 1⟩ [0, 1, 2, 3, 4, 5, 6, 7, 8, 9]
    "" 12 (by rfl) (by rfl) (by rfl)
  refine ⟨t1.1 (by rfl), t2.2.1 (by rfl) (by rfl) (by rfl), ?_,
    (t4.2.2.2 (by rfl)).1, (t4.2.2.2 (by rfl)).2⟩
  have h3 := t3.2.2.1 (by rfl) (by rfl)
  exact h3

/-- C9 counterexample: a page request whose `Accept-Encoding` header is
present but undecodable is served with 200, not 406 — the page handler
only consults the header in its `Deflate` branch, so a loose-file page
(here bytes `[9]`) ignores the undecodable header entirely. -/
theorem undecodable_header_counterexample :
    route (fun q => if q = "p" then some [9] else none) (fun _ => none)
      ⟨⟨[91, 93], none⟩, [("w", ⟨⟨[], none⟩, none, [⟨Pages.filesystem ["p"]⟩]⟩)]⟩
      "GET" ["w", "0", "0"] .undecodable
      = .ok ⟨200, [9], none, none⟩
    ∧ (responseOf (route (fun q => if q = "p" then some [9] else none)
        (fun _ => none)
        ⟨⟨[91, 93], none⟩,
          [("w", ⟨⟨[], none⟩, none, [⟨Pages.filesystem ["p"]⟩]⟩)]⟩
        "GET" ["w", "0", "0"] .undecodable)).status = 200 := by
  exact ⟨rfl, rfl⟩

/-- C9 (amended): an undecodable `Accept-Encoding` header yields 406 on
the JSON endpoints (library listing and work metadata) unconditionally;
on the page endpoint it yields 406 exactly when the resolved page is a
`Deflate`-method archive entry whose archive opens, while `Store`-method
archive entries and loose-file pages never consult the header and are
served with 200. -/
theorem undecodable_header_behavior :
    ∀ (j : JsonBytes) (lib : LibraryEntry) (mangaE : MangaEntry)
      (fs : String → Option (List Nat))
      (inflate : List Nat → Option (List Nat)),
    j.into_response .undecodable = .error Error.notAcceptable
    ∧ serve_lib lib .undecodable = .error Error.notAcceptable
    ∧ serve_manga mangaE .undecodable = .error Error.notAcceptable
    ∧ (∀ (manga : MangaEntry) (ch pg : Nat) (path : String)
        (es : List MiniZipEntry) (e : MiniZipEntry) (content : List Nat),
        manga.chapters[ch]? = some ⟨Pages.zip path es⟩ →
        es[pg]? = some e → fs path = some content →
        (e.method = .deflate →
          serve_page fs inflate .undecodable manga ch pg
            = .error Error.notAcceptable)
        ∧ (e.method = .store →
          serve_page fs inflate .undecodable manga ch pg
            = .ok ⟨200,
                (content.drop e.data_offset).take e.compressed_size,
                none, none⟩))
    ∧ (∀ (manga : MangaEntry) (ch pg : Nat) (pages : List String)
        (page : String) (bytes : List Nat),
        manga.chapters[ch]? = some ⟨Pages.filesystem pages⟩ →
        pages[pg]? = some page → fs page = some bytes →
        serve_page fs inflate .undecodable manga ch pg
          = .ok ⟨200, bytes, none, none⟩) := by
  intro j lib mangaE fs inflate
  refine ⟨rfl, rfl, rfl, ?_, ?_⟩
  · intro manga ch pg path es e content hch hpg hfs
    refine ⟨fun hm => ?_, fun hm => ?_⟩ <;>
      simp [serve_page, hch, hpg, hfs, hm, acceptsDeflate, Error.notAcceptable]
  · intro manga ch pg pages page bytes hch hpg hfs
    simp [serve_page, hch, hpg, hfs]

/-- C9 witness: `undecodable_header_behavior` at a concrete library, an
archive with one `Deflate` and one `Store` entry, and a loose-file
chapter. -/
theorem undecodable_header_behavior_witness :
    JsonBytes.into_response ⟨[91, 93], none⟩ .undecodable
      = .error Error.notAcceptable
    ∧ serve_lib ⟨⟨[91, 93], none⟩, []⟩ .undecodable
      = .error Error.notAcceptable
    ∧ serve_manga ⟨⟨[], none⟩, none, []⟩ .undecodable
      = .error Error.notAcceptable
    ∧ serve_page (fun q => if q = "z" then some [0, 1, 2, 3] else some [9])
        (fun _ => none) .undecodable
        ⟨⟨[], none⟩, none, [⟨Pages.zip "z" [⟨.deflate, 1, 2, 2⟩]⟩]⟩ 0 0
      = .error Error.notAcceptable
    ∧ serve_page (fun q => if q = "z" then some [0, 1, 2, 3] else some [9])
        (fun _ => none) .undecodable
        ⟨⟨[], none⟩, none, [⟨Pages.zip "z" [⟨.store, 1, 2, 2⟩]⟩]⟩ 0 0
      = .ok ⟨200, [1, 2], none, none⟩
    ∧ serve_page (fun q => if q = "z" then some [0, 1, 2, 3] else some [9])
        (fun _ => none) .undecodable
        ⟨⟨[], none⟩, none, [⟨Pages.filesystem ["p"]⟩]⟩ 0 0
      = .ok ⟨200, [9], none, none⟩ := by
  have t := undecodable_header_behavior ⟨[91, 93], none⟩ ⟨⟨[91, 93], none⟩, []⟩
    ⟨⟨[], none⟩, none, []⟩ (fun q => if q = "z" then some [0, 1, 2, 3] else some [9])
    (fun _ => none)
  have hz := t.2.2.2.1
    ⟨⟨[], none⟩, none, [⟨Pages.zip "z" [⟨.deflate, 1, 2, 2⟩]⟩]⟩ 0 0 "z"
    [⟨.deflate, 1, 2, 2⟩] ⟨.deflate, 1, 2, 2⟩ [0, 1, 2, 3]
    (by rfl) (by rfl) (by rfl)
  have hs := t.2.2.2.1
    ⟨⟨[], none⟩, none, [⟨Pages.zip "z" [⟨.store, 1, 2, 2⟩]⟩]⟩ 0 0 "z"
    [⟨.store, 1, 2, 2⟩] ⟨.store, 1, 2, 2⟩ [0, 1, 2, 3]
    (by rfl) (by rfl) (by rfl)
  have hf := t.2.2.2.2
    ⟨⟨[], none⟩, none, [⟨Pages.filesystem ["p"]⟩]⟩ 0 0 ["p"] "p" [9]
    (by rfl) (by rfl) (by rfl)
  exact ⟨t.1, t.2.1, t.2.2.1, hz.1 (by rfl), hs.2 (by rfl), hf⟩

/-- C1: every page-table entry built for a zip chapter comes from a file
entry of the central directory and records a data offset equal to
`header_offset + 30 + name_len + extra_len`, where `name_len` and
`extra_len` are the 16-bit fields read from the local header at
`header_offset + 26` and `header_offset + 28`; and the page streamer
reads exactly the `compressed_size`-byte window starting at that
recorded offset (here shown for a `Store` entry, whose body is the raw
window). -/
theorem zip_data_offset :
    ∀ (p : String) (archive : List Nat) (raws : List RawZipEntry)
      (e : MiniZipEntry) (fs : String → Option (List Nat))
      (inflate : List Nat → Option (List Nat)) (accept : AcceptEnc)
      (manga : MangaEntry) (ch pg : Nat) (path : String)
      (es : List MiniZipEntry) (content : List Nat),
    load_pages_zip p archive raws = Pages.zip p (zipEntries archive raws)
    ∧ (e ∈ zipEntries archive raws →
        ∃ raw, raw ∈ raws ∧ raw.isFile = true
          ∧ e = MiniZipEntry.new archive raw
          ∧ e.data_offset = raw.header_offset + 30
              + readU16 archive (raw.header_offset + 26)
              + readU16 archive (raw.header_offset + 28))
    ∧ (manga.chapters[ch]? = some ⟨Pages.zip path es⟩ →
        es[pg]? = some e → fs path = some content → e.method = .store →
        serve_page fs inflate accept manga ch pg
          = .ok ⟨200, (content.drop e.data_offset).take e.compressed_size,
              none, none⟩) := by
  intro p archive raws e fs inflate accept manga ch pg path es content
  refine ⟨rfl, fun hmem => ?_, fun hch hpg hfs hm => ?_⟩
  · simp only [zipEntries] at hmem
    rcases List.mem_map.mp hmem with ⟨pr, hpr, hsnd⟩
    rcases List.mem_map.mp (List.mem_mergeSort.mp hpr) with ⟨raw, hraw, hpair⟩
    rcases List.mem_filter.mp hraw with ⟨hin, hfile⟩
    refine ⟨raw, hin, hfile, ?_, ?_⟩
    · rw [← hsnd, ← hpair]
    · rw [← hsnd, ← hpair]
      rfl
  · simp [serve_page, hch, hpg, hfs, hm]

/-- C1 witness: `zip_data_offset` at a 64-byte archive whose bytes at
offsets 26..29 are `[2, 0, 3, 0]`, so the single file entry (header
offset 0) records data offset `0 + 30 + 2 + 3 = 35`; a streamer read of
that entry returns the clamped window at offset 35. -/
theorem zip_data_offset_witness :
    load_pages_zip "z"
        (List.replicate 26 0 ++ [2, 0, 3, 0] ++ List.replicate 34 0)
        [⟨"a", true, .store, 0, 4, 4⟩]
      = Pages.zip "z" (zipEntries
          (List.replicate 26 0 ++ [2, 0, 3, 0] ++ List.replicate 34 0)
          [⟨"a", true, .store, 0, 4, 4⟩])
    ∧ (⟨Method.store, 35, 4, 4⟩ : MiniZipEntry) ∈ zipEntries
        (List.replicate 26 0 ++ [2, 0, 3, 0] ++ List.replicate 34 0)
        [⟨"a", true, .store, 0, 4, 4⟩]
    ∧ (∃ raw, raw ∈ [(⟨"a", true, .store, 0, 4, 4⟩ : RawZipEntry)]
        ∧ raw.isFile = true
        ∧ (⟨Method.store, 35, 4, 4⟩ : MiniZipEntry) = MiniZipEntry.new
            (List.replicate 26 0 ++ [2, 0, 3, 0] ++ List.replicate 34 0) raw
        ∧ (35 : Nat) = raw.header_offset + 30
            + readU16 (List.replicate 26 0 ++ [2, 0, 3, 0]
                ++ List.replicate 34 0) (raw.header_offset + 26)
            + readU16 (List.replicate 26 0 ++ [2, 0, 3, 0]
                ++ List.replicate 34 0) (raw.header_offset + 28))
    ∧ serve_page (fun q => if q = "z" then some (List.range 64) else none)
        (fun _ => none) .absent
        ⟨⟨[], none⟩, none, [⟨Pages.zip "z" [⟨.store, 35, 4, 4⟩]⟩]⟩ 0 0
      = .ok ⟨200, ((List.range 64).drop 35).take 4, none, none⟩ := by
  have t := zip_data_offset "z"
    (List.replicate 26 0 ++ [2, 0, 3, 0] ++ List.replicate 34 0)
    [⟨"a", true, .store, 0, 4, 4⟩] ⟨Method.store, 35, 4, 4⟩
    (fun q => if q = "z" then some (List.range 64) else none)
    (fun _ => none) .absent
    ⟨⟨[], none⟩, none, [⟨Pages.zip "z" [⟨.store, 35, 4, 4⟩]⟩]⟩ 0 0 "z"
    [⟨.store, 35, 4, 4⟩] (List.range 64)
  have hze : zipEntries
      (List.replicate 26 0 ++ [2, 0, 3, 0] ++ List.replicate 34 0)
      [⟨"a", true, .store, 0, 4, 4⟩]
      = [⟨Method.store, 35, 4, 4⟩] := by
    simp only [zipEntries, List.filter, List.map, List.mergeSort_singleton]
    rfl
  have hmem : (⟨Method.store, 35, 4, 4⟩ : MiniZipEntry) ∈ zipEntries
      (List.replicate 26 0 ++ [2, 0, 3, 0] ++ List.replicate 34 0)
      [⟨"a", true, .store, 0, 4, 4⟩] := by
    rw [hze]
    exact List.mem_singleton.mpr rfl
  exact ⟨t.1, hmem, t.2.1 hmem, t.2.2 (by rfl) (by rfl) (by rfl) (by rfl)⟩

end TachiRemote
